import Mathlib

/-!
Verification of the transactional task-mutation and eventing subsystem
(`TasksService`) of the TaskFlow repository, as a shallow embedding.

The service methods (`create`, `findAll`, `findOne`, `update`, `remove`,
`updateStatus`, `getStats`, `batchProcess`) are translated from the
source (`src/app.module.ts`, class `TasksService`).  Durable state is a
list of task rows; a transaction works on a draft of the store and the
store is replaced on commit, left unchanged on rollback, exactly as the
`queryRunner.startTransaction / commitTransaction / rollbackTransaction`
discipline of the source prescribes.  Infrastructure failures (a store
write throwing, a commit throwing, the queue adapter being absent or its
`add` throwing) are injected through an `Env` oracle, and every
operation also returns the list of observable events it produced, so
that ordering properties of saves, enqueue attempts, commits and
rollbacks can be stated.
-/

namespace TaskFlow

/-- Modelled from the spec: the values of the `TaskStatus` enumeration
(`pending`, `in_progress`, `completed`); the enum source file is not
under `src/`, the spec fixes the three values. -/
def statusValues : List String := ["pending", "in_progress", "completed"]

/-- Modelled from the spec: the values of the `TaskPriority` enumeration
(`low`, `medium`, `high`); the enum source file is not under `src/`. -/
def priorityValues : List String := ["low", "medium", "high"]

/-- Modelled from the spec: a persisted task row (`task.entity.ts` is not
under `src/`).  Attributes follow the spec's data model: identifier,
title, optional description, status, priority, optional owning user,
optional due date, created-at / updated-at timestamps.  The status and
priority columns hold strings: the service layer passes raw strings
through to them (`status as TaskStatus`, `newPriority as TaskPriority`
are compile-time casts with no runtime check). -/
structure Task where
  id : String
  title : String
  description : Option String := none
  status : String := "pending"
  priority : String := "medium"
  userId : Option String := none
  dueDate : Option Int := none
  createdAt : Int := 0
  updatedAt : Int := 0
deriving Repr, DecidableEq

/-- The Record Store: the durable table of task rows. -/
abbrev Store := List Task

/-- Modelled from the spec: `CreateTaskDto` (file not under `src/`):
title plus optional description, status, priority, owning user and due
date; missing status and priority fall back to the entity defaults. -/
structure CreateTaskDto where
  title : String
  description : Option String := none
  status : Option String := none
  priority : Option String := none
  userId : Option String := none
  dueDate : Option Int := none
deriving Repr, DecidableEq

/-- Modelled from the spec: `UpdateTaskDto` (file not under `src/`): a
patch of optional fields; `Object.assign` in `update` overwrites exactly
the supplied fields. -/
structure UpdateTaskDto where
  title : Option String := none
  description : Option String := none
  status : Option String := none
  priority : Option String := none
  userId : Option String := none
  dueDate : Option Int := none
deriving Repr, DecidableEq

/-- `QueryTaskDto` (from `dto/query-task.dto.ts`): filters, sort and
pagination for `findAll`, with the source's defaults. -/
structure QueryTaskDto where
  status : Option String := none
  priority : Option String := none
  userId : Option String := none
  search : Option String := none
  dueDate : Option Int := none
  sortBy : String := "createdAt"
  sortOrder : String := "DESC"
  page : Nat := 1
  limit : Nat := 10
deriving Repr, DecidableEq

/-- `BatchTaskDto` (from `dto/batch-task.dto.ts`): task ids, an action
string, and the optional companion parameters.  `newStatus` is typed as
the status enum in the source DTO (`@IsEnum(TaskStatus)`), `newPriority`
is only `@IsString() @IsNotEmpty()`. -/
structure BatchTaskDto where
  taskIds : List String
  action : String
  newStatus : Option String := none
  newPriority : Option String := none
deriving Repr, DecidableEq

/-- `PaginatedTasksDto` (from `dto/paginated-tasks.dto.ts`). -/
structure PaginatedTasks where
  data : List Task
  total : Nat
  page : Nat
  limit : Nat
  totalPages : Nat
  hasNext : Bool
  hasPrev : Bool
deriving Repr, DecidableEq

/-- `TaskStatsDto` (from `dto/task-stats.dto.ts`). -/
structure TaskStats where
  total : Nat
  completed : Nat
  inProgress : Nat
  pending : Nat
  highPriority : Nat
  mediumPriority : Nat
  lowPriority : Nat
  overdue : Nat
  completionRate : Nat
deriving Repr, DecidableEq

/-- One result record of `batchProcess`. -/
structure BatchResult where
  action : String
  success : Bool
  affected : Nat
  newStatus : Option String := none
  newPriority : Option String := none
deriving Repr, DecidableEq

/-- The two error kinds the service raises: `BadRequestException`
(the spec's ValidationFailure / generic failure) and
`NotFoundException`, each carrying its message. -/
inductive ServiceError where
  | badRequest (msg : String)
  | notFound (msg : String)
deriving Repr, DecidableEq

/-- Whether an error is a `BadRequestException`. -/
def ServiceError.isBadRequest : ServiceError → Bool
  | .badRequest _ => true
  | .notFound _ => false

/-- Observable events of one operation: a row save inside the
transaction, a bulk statement inside the transaction, an enqueue attempt
on the Event Queue (`ok` records whether the queue accepted it), a row
delete, a commit, a rollback. -/
inductive Event where
  | save (taskId : String)
  | bulkOp (action : String)
  | enqueue (taskId : String) (status : String) (ok : Bool)
  | deleteRow (taskId : String)
  | commit
  | rollback
deriving Repr, DecidableEq

/-- Failure-injection oracle for one operation: whether the queue
adapter is wired at all, whether its `add` succeeds, whether in-
transaction store writes succeed, whether the final commit succeeds, and
the message carried by an injected store failure. -/
structure Env where
  queuePresent : Bool := true
  enqueueOk : Bool := true
  storeOk : Bool := true
  commitOk : Bool := true
  storeErrMsg : String := "store failure"
deriving Repr, DecidableEq

deriving instance DecidableEq for Except

/-- Row lookup by identifier, as `findOne(Task, { where: { id } })`. -/
def findRow (id : String) (store : Store) : Option Task :=
  store.find? (fun t => t.id == id)

/-- `manager.save` / `repository.save`: replace the row with the same
identifier, or insert the row when absent. -/
def saveRow (store : Store) (t : Task) : Store :=
  if store.any (fun u => u.id == t.id) then
    store.map (fun u => if u.id == t.id then t else u)
  else
    store ++ [t]

/-- The row `create` builds from the dto: store-assigned identifier and
timestamps, entity defaults for absent status and priority. -/
def createdTask (dto : CreateTaskDto) (newId : String) (now : Int) : Task :=
  { id := newId
    title := dto.title
    description := dto.description
    status := dto.status.getD "pending"
    priority := dto.priority.getD "medium"
    userId := dto.userId
    dueDate := dto.dueDate
    createdAt := now
    updatedAt := now }

/-- `Object.assign(task, updateTaskDto)`: the supplied patch fields
overwrite the row's fields. -/
def assignPatch (t : Task) (p : UpdateTaskDto) : Task :=
  { t with
    title := p.title.getD t.title
    description := match p.description with | some d => some d | none => t.description
    status := p.status.getD t.status
    priority := p.priority.getD t.priority
    userId := match p.userId with | some u => some u | none => t.userId
    dueDate := match p.dueDate with | some d => some d | none => t.dueDate }

/-- The row `update` persists: the patched row with the store-advanced
updated-at timestamp. -/
def patchedTask (t : Task) (p : UpdateTaskDto) (now : Int) : Task :=
  { assignPatch t p with updatedAt := now }

namespace TasksService

/-- `TasksService.create`: begin a transaction, save the new row, then
(still inside the transaction, before commit) attempt the
`task-status-update` enqueue when the queue adapter is present — a queue
failure is logged and swallowed — then commit; any store error rolls the
transaction back and is wrapped into BadRequest "Failed to create
task". -/
def create (env : Env) (dto : CreateTaskDto) (newId : String) (now : Int) (store : Store) :
    Except ServiceError Task × Store × List Event :=
  if env.storeOk then
    let task := createdTask dto newId now
    let draft := saveRow store task
    let queueEvents :=
      if env.queuePresent then [Event.enqueue task.id task.status env.enqueueOk] else []
    if env.commitOk then
      (Except.ok task, draft, Event.save task.id :: queueEvents ++ [Event.commit])
    else
      (Except.error (ServiceError.badRequest "Failed to create task"), store,
        Event.save task.id :: queueEvents ++ [Event.rollback])
  else
    (Except.error (ServiceError.badRequest "Failed to create task"), store, [Event.rollback])

/-- `TasksService.update`: begin a transaction, locked read of the row
(NotFound when absent, re-raised as-is after rollback), assign the patch,
save, and — when the status changed relative to the pre-patch value and
the queue adapter is present — attempt one enqueue with the new status
(failure swallowed) before committing; any other error rolls back and is
wrapped into BadRequest "Failed to update task". -/
def update (env : Env) (id : String) (patch : UpdateTaskDto) (now : Int) (store : Store) :
    Except ServiceError Task × Store × List Event :=
  match findRow id store with
  | none =>
      (Except.error (ServiceError.notFound ("Task with ID " ++ id ++ " not found")), store,
        [Event.rollback])
  | some task =>
      if env.storeOk then
        let updated := patchedTask task patch now
        let draft := saveRow store updated
        let queueEvents :=
          if task.status != updated.status && env.queuePresent then
            [Event.enqueue updated.id updated.status env.enqueueOk]
          else []
        if env.commitOk then
          (Except.ok updated, draft, Event.save updated.id :: queueEvents ++ [Event.commit])
        else
          (Except.error (ServiceError.badRequest "Failed to update task"), store,
            Event.save updated.id :: queueEvents ++ [Event.rollback])
      else
        (Except.error (ServiceError.badRequest "Failed to update task"), store, [Event.rollback])

/-- `TasksService.remove`: begin a transaction, locked read (NotFound
re-raised as-is after rollback when absent), delete the row, commit;
other errors roll back and are wrapped into BadRequest "Failed to remove
task". -/
def remove (env : Env) (id : String) (store : Store) :
    Except ServiceError Unit × Store × List Event :=
  match findRow id store with
  | none =>
      (Except.error (ServiceError.notFound ("Task with ID " ++ id ++ " not found")), store,
        [Event.rollback])
  | some _ =>
      if env.storeOk then
        let draft := store.filter (fun t => !(t.id == id))
        if env.commitOk then
          (Except.ok (), draft, [Event.deleteRow id, Event.commit])
        else
          (Except.error (ServiceError.badRequest "Failed to remove task"), store,
            [Event.deleteRow id, Event.rollback])
      else
        (Except.error (ServiceError.badRequest "Failed to remove task"), store, [Event.rollback])

/-- `TasksService.findOne`: single-row lookup, NotFound when absent. -/
def findOne (id : String) (store : Store) : Except ServiceError Task :=
  match findRow id store with
  | none => Except.error (ServiceError.notFound ("Task with ID " ++ id ++ " not found"))
  | some t => Except.ok t

/-- `TasksService.updateStatus`: read the row without any lock or
transaction, overwrite its status with the raw argument string
(`status as TaskStatus` is a compile-time cast only), and save through
the plain repository.  No queue interaction on this path.  (Store-level
I/O failure is unhandled in the source here and is not injected.) -/
def updateStatus (id : String) (status : String) (now : Int) (store : Store) :
    Except ServiceError Task × Store × List Event :=
  match findOne id store with
  | Except.error e => (Except.error e, store, [])
  | Except.ok task =>
      let updated := { task with status := status, updatedAt := now }
      (Except.ok updated, saveRow store updated, [Event.save task.id])

end TasksService

/-- Case-insensitive prefix test on character lists (helper for the
ILIKE predicate). -/
def charsLeadWith : List Char → List Char → Bool
  | [], _ => true
  | _ :: _, [] => false
  | c :: cs, d :: ds => c == d && charsLeadWith cs ds

/-- Substring containment on character lists (helper for the ILIKE
predicate). -/
def charsContain (needle : List Char) : List Char → Bool
  | [] => charsLeadWith needle []
  | d :: ds => charsLeadWith needle (d :: ds) || charsContain needle ds

/-- `column ILIKE '%search%'`: case-insensitive substring match. -/
def ilike (hay pat : String) : Bool :=
  charsContain pat.toLower.toList hay.toLower.toList

/-- The filter predicate of `buildTaskQuery`: the conjunction of the
supplied predicates — status equality, priority equality, owning-user
equality, case-insensitive substring search over title or description,
due-date equality. -/
def matchesQuery (q : QueryTaskDto) (t : Task) : Bool :=
  (match q.status with | none => true | some s => t.status == s) &&
  (match q.priority with | none => true | some p => t.priority == p) &&
  (match q.userId with | none => true | some u => t.userId == some u) &&
  (match q.search with
    | none => true
    | some s => ilike t.title s || (match t.description with | some d => ilike d s | none => false)) &&
  (match q.dueDate with | none => true | some d => t.dueDate == some d)

/-- Column comparison for `orderBy('task.' + sortBy, sortOrder)` in
ascending direction, over the sortable columns the entity offers; the
source default column is createdAt. -/
def columnLe (col : String) (a b : Task) : Bool :=
  if col == "title" then a.title ≤ b.title
  else if col == "status" then a.status ≤ b.status
  else if col == "priority" then a.priority ≤ b.priority
  else if col == "dueDate" then a.dueDate.getD 0 ≤ b.dueDate.getD 0
  else if col == "updatedAt" then a.updatedAt ≤ b.updatedAt
  else a.createdAt ≤ b.createdAt

/-- The comparison `findAll` sorts with: the chosen column in the chosen
direction (`DESC` reverses the comparison). -/
def taskLe (q : QueryTaskDto) (a b : Task) : Bool :=
  if q.sortOrder == "ASC" then columnLe q.sortBy a b else columnLe q.sortBy b a

/-- Insert into a sorted list according to a Boolean comparison. -/
def insertSorted (le : Task → Task → Bool) (t : Task) : List Task → List Task
  | [] => [t]
  | u :: us => if le t u then t :: u :: us else u :: insertSorted le t us

/-- Sorting of the matching rows by the requested column and
direction. -/
def sortTasks (le : Task → Task → Bool) : List Task → List Task
  | [] => []
  | t :: ts => insertSorted le t (sortTasks le ts)

namespace TasksService

/-- `TasksService.findAll`: one filtered query; a count query over the
same predicate gives the total; sorting, then `skip((page-1)*limit)` and
`take(limit)` give the page; `totalPages = Math.ceil(total / limit)` and
the navigation flags complete the envelope.  (`Math.ceil` on the
non-negative rational `total / limit` is `(total + limit - 1) / limit`
in natural division, for `limit ≥ 1` as the dto validation
guarantees.) -/
def findAll (q : QueryTaskDto) (store : Store) : PaginatedTasks :=
  let matched := store.filter (matchesQuery q)
  let total := matched.length
  let offset := (q.page - 1) * q.limit
  let items := ((sortTasks (taskLe q) matched).drop offset).take q.limit
  let totalPages := (total + q.limit - 1) / q.limit
  { data := items
    total := total
    page := q.page
    limit := q.limit
    totalPages := totalPages
    hasNext := decide (q.page < totalPages)
    hasPrev := decide (q.page > 1) }

end TasksService

/-- Count of rows satisfying a predicate (one conditional-count column
of the aggregation query). -/
def countBy (p : Task → Bool) (store : Store) : Nat :=
  (store.filter p).length

/-- `Math.round((completed / total) * 100)` for `total > 0`: round half
up of `100 * completed / total`, i.e. `(200*completed + total) / (2*total)`
in natural division. -/
def jsRound100 (completed total : Nat) : Nat :=
  (200 * completed + total) / (2 * total)

/-- Whether a row is overdue at time `now`: due date in the past and
status not completed (`task.dueDate < :now AND task.status != :completed`). -/
def isOverdue (now : Int) (t : Task) : Bool :=
  (match t.dueDate with | some d => decide (d < now) | none => false) && t.status != "completed"

namespace TasksService

/-- `TasksService.getStats`: the single aggregation query — total count,
conditional counts per status value and per priority value, overdue
count, and `completionRate = Math.round(completed/total*100)` with 0
when the total is 0. -/
def getStats (now : Int) (store : Store) : TaskStats :=
  let total := store.length
  let completed := countBy (fun t => t.status == "completed") store
  { total := total
    completed := completed
    inProgress := countBy (fun t => t.status == "in_progress") store
    pending := countBy (fun t => t.status == "pending") store
    highPriority := countBy (fun t => t.priority == "high") store
    mediumPriority := countBy (fun t => t.priority == "medium") store
    lowPriority := countBy (fun t => t.priority == "low") store
    overdue := countBy (isOverdue now) store
    completionRate := if total > 0 then jsRound100 completed total else 0 }

end TasksService

/-- Bulk `UPDATE ... SET status = s WHERE id IN ids`. -/
def bulkSetStatus (ids : List String) (s : String) (store : Store) : Store :=
  store.map (fun t => if ids.contains t.id then { t with status := s } else t)

/-- Bulk `UPDATE ... SET priority = p WHERE id IN ids`. -/
def bulkSetPriority (ids : List String) (p : String) (store : Store) : Store :=
  store.map (fun t => if ids.contains t.id then { t with priority := p } else t)

/-- Bulk `DELETE FROM tasks WHERE id IN ids`. -/
def bulkDelete (ids : List String) (store : Store) : Store :=
  store.filter (fun t => !(ids.contains t.id))

/-- The message of the validation failure thrown inside the
`update_status` branch of `batchProcess`. -/
def newStatusRequiredMsg : String := "New status is required for update_status action"

/-- The message of the validation failure thrown inside the
`update_priority` branch of `batchProcess`. -/
def newPriorityRequiredMsg : String := "New priority is required for update_priority action"

/-- The catch clause of `batchProcess` wraps every error message it
sees, its own validation failures included, into this BadRequest. -/
def batchWrapped (msg : String) : ServiceError :=
  ServiceError.badRequest ("Batch operation failed: " ++ msg)

namespace TasksService

/-- `TasksService.batchProcess`: one transaction for the whole batch;
dispatch on the action string; `update_status` / `update_priority`
throw their validation failure when the companion parameter is absent
(or empty: the source tests JavaScript truthiness) before any bulk
statement runs; the unknown action throws; each branch issues one bulk
statement over all ids and pushes one result record whose `affected` is
the length of the id list; commit; on any error the transaction rolls
back and the error message is re-wrapped into
BadRequest "Batch operation failed: <message>". -/
def batchProcess (env : Env) (dto : BatchTaskDto) (store : Store) :
    Except ServiceError (List BatchResult) × Store × List Event :=
  let failNow : String → Except ServiceError (List BatchResult) × Store × List Event :=
    fun msg => (Except.error (batchWrapped msg), store, [Event.rollback])
  let finish : BatchResult → Store → Except ServiceError (List BatchResult) × Store × List Event :=
    fun res draft =>
      if env.commitOk then
        (Except.ok [res], draft, [Event.bulkOp dto.action, Event.commit])
      else
        (Except.error (batchWrapped env.storeErrMsg), store,
          [Event.bulkOp dto.action, Event.rollback])
  if dto.action == "complete" then
    if env.storeOk then
      finish { action := "complete", success := true, affected := dto.taskIds.length }
        (bulkSetStatus dto.taskIds "completed" store)
    else failNow env.storeErrMsg
  else if dto.action == "delete" then
    if env.storeOk then
      finish { action := "delete", success := true, affected := dto.taskIds.length }
        (bulkDelete dto.taskIds store)
    else failNow env.storeErrMsg
  else if dto.action == "update_status" then
    match dto.newStatus with
    | none => failNow newStatusRequiredMsg
    | some s =>
        if s.isEmpty then failNow newStatusRequiredMsg
        else if env.storeOk then
          finish { action := "update_status", success := true, affected := dto.taskIds.length,
                   newStatus := some s }
            (bulkSetStatus dto.taskIds s store)
        else failNow env.storeErrMsg
  else if dto.action == "update_priority" then
    match dto.newPriority with
    | none => failNow newPriorityRequiredMsg
    | some p =>
        if p.isEmpty then failNow newPriorityRequiredMsg
        else if env.storeOk then
          finish { action := "update_priority", success := true, affected := dto.taskIds.length,
                   newPriority := some p }
            (bulkSetPriority dto.taskIds p store)
        else failNow env.storeErrMsg
  else failNow ("Unknown action: " ++ dto.action)

end TasksService

/-! Concrete rows and stores used by the witnesses and
counterexamples. -/

/-- A single pending fixture row. -/
def task0 : Task := { id := "t1", title := "alpha", priority := "low", createdAt := 1 }

/-- A second fixture row. -/
def task1 : Task := { id := "t2", title := "beta", priority := "high", createdAt := 2 }

/-- A numbered fixture row (identifier `task<n>`, creation time `n`). -/
def mkTask (n : Nat) : Task :=
  { id := "task" ++ toString n, title := "row", createdAt := (n : Int) }

/-- Twelve fixture rows, for the pagination instance. -/
def store12 : Store := (List.range 12).map (fun n => mkTask (n + 1))

/-- The pagination query of the fixture: no filters, page 2, limit 5. -/
def q12 : QueryTaskDto := { page := 2, limit := 5 }

/-- Whether an event is an enqueue attempt on the Event Queue. -/
def isEnqueueEvent : Event → Bool
  | .enqueue _ _ _ => true
  | _ => false

/-- Number of enqueue attempts in an event trace. -/
def enqueueCount (evs : List Event) : Nat :=
  (evs.filter isEnqueueEvent).length

/-- The spec's data-model invariant for one row: status and priority
are drawn from their enumerations. -/
def validTask (t : Task) : Prop :=
  t.status ∈ statusValues ∧ t.priority ∈ priorityValues

instance (t : Task) : Decidable (validTask t) := by
  unfold validTask; infer_instance

/-- The spec's data-model invariant for the whole store. -/
def validStore (s : Store) : Prop :=
  ∀ t ∈ s, validTask t

instance (s : Store) : Decidable (validStore s) := by
  unfold validStore; infer_instance

/-- The statistics fixture: 10 rows — 4 completed, 3 in progress,
3 pending of which 2 are overdue at time 100; 3 high / 4 medium /
3 low priorities. -/
def statsFixture : Store :=
  [ { id := "c1", title := "r", status := "completed", priority := "high" },
    { id := "c2", title := "r", status := "completed", priority := "medium" },
    { id := "c3", title := "r", status := "completed", priority := "low", dueDate := some 10 },
    { id := "c4", title := "r", status := "completed", priority := "medium" },
    { id := "g1", title := "r", status := "in_progress", priority := "high" },
    { id := "g2", title := "r", status := "in_progress", priority := "medium" },
    { id := "g3", title := "r", status := "in_progress", priority := "low" },
    { id := "n1", title := "r", status := "pending", priority := "high", dueDate := some 50 },
    { id := "n2", title := "r", status := "pending", priority := "medium", dueDate := some 60 },
    { id := "n3", title := "r", status := "pending", priority := "low", dueDate := some 200 } ]

/-! Helper lemmas. -/

/-- Inserting into a sorted list adds one element. -/
theorem insertSorted_length (le : Task → Task → Bool) (t : Task) (l : List Task) :
    (insertSorted le t l).length = l.length + 1 := by
  induction l with
  | nil => rfl
  | cons u us ih => by_cases h : le t u = true <;> simp [insertSorted, h, ih]

/-- Sorting preserves length. -/
theorem sortTasks_length (le : Task → Task → Bool) (l : List Task) :
    (sortTasks le l).length = l.length := by
  induction l with
  | nil => rfl
  | cons t ts ih => simp [sortTasks, insertSorted_length, ih]

/-- Patching never changes the row identifier. -/
theorem patchedTask_id (t : Task) (p : UpdateTaskDto) (now : Int) :
    (patchedTask t p now).id = t.id := rfl

/-- Every row of `saveRow store u` is `u` or a row of `store`. -/
theorem mem_saveRow (store : Store) (u t : Task) (h : t ∈ saveRow store u) :
    t = u ∨ t ∈ store := by
  unfold saveRow at h
  split at h
  · rcases List.mem_map.mp h with ⟨w, hw, hwe⟩
    by_cases hid : (w.id == u.id) = true
    · left; rw [← hwe]; simp [hid]
    · right; rw [← hwe]; simp [hid]; exact hw
  · rcases List.mem_append.mp h with hl | hr
    · right; exact hl
    · left; simpa using hr

/-- Claim C7: `batchProcess` with action `update_status` and an absent
`newStatus` (likewise `update_priority` with an absent `newPriority`,
and any unknown action) fails with a ValidationFailure
(`BadRequestException`) and performs no store mutation: the store after
the call equals the store before it. -/
theorem batch_missing_param_no_mutation (env : Env) (ids : List String)
    (ns np : Option String) (store : Store) (a : String)
    (ha : a ≠ "complete" ∧ a ≠ "delete" ∧ a ≠ "update_status" ∧ a ≠ "update_priority") :
    (TasksService.batchProcess env
        { taskIds := ids, action := "update_status", newStatus := none, newPriority := np } store
      = (Except.error (batchWrapped newStatusRequiredMsg), store, [Event.rollback])) ∧
    (TasksService.batchProcess env
        { taskIds := ids, action := "update_priority", newStatus := ns, newPriority := none } store
      = (Except.error (batchWrapped newPriorityRequiredMsg), store, [Event.rollback])) ∧
    (TasksService.batchProcess env
        { taskIds := ids, action := a, newStatus := ns, newPriority := np } store
      = (Except.error (batchWrapped ("Unknown action: " ++ a)), store, [Event.rollback])) := by
  obtain ⟨h1, h2, h3, h4⟩ := ha
  refine ⟨?_, ?_, ?_⟩ <;>
    simp [TasksService.batchProcess, h1, h2, h3, h4]

/-- Witness for C7 at a concrete input (unknown action "frobnicate"). -/
theorem batch_missing_param_no_mutation_witness :
    ("frobnicate" ≠ "complete" ∧ "frobnicate" ≠ "delete" ∧ "frobnicate" ≠ "update_status" ∧
      "frobnicate" ≠ "update_priority") ∧
    (TasksService.batchProcess {}
        { taskIds := ["t1"], action := "frobnicate", newStatus := none, newPriority := none } [task0]
      = (Except.error (batchWrapped ("Unknown action: " ++ "frobnicate")), [task0],
          [Event.rollback])) :=
  ⟨by decide,
    (batch_missing_param_no_mutation {} ["t1"] none none [task0] "frobnicate" (by decide)).2.2⟩

/-- Claim C10: whenever `batchProcess` returns without throwing, the
result record reports success and `affected` equal to the length of the
supplied id list, regardless of which of those identifiers exist in the
store. -/
theorem batchProcess_affected_count (env : Env) (dto : BatchTaskDto) (store : Store)
    (res : List BatchResult) (st : Store) (evs : List Event)
    (h : TasksService.batchProcess env dto store = (Except.ok res, st, evs)) :
    ∃ r, res = [r] ∧ r.success = true ∧ r.affected = dto.taskIds.length ∧
      r.action = dto.action := by
  simp only [TasksService.batchProcess] at h
  repeat' split at h
  all_goals simp_all
  all_goals obtain ⟨hres, hst, hevs⟩ := h
  all_goals exact ⟨_, hres.symm, rfl, rfl, rfl⟩

/-- Witness for C10: a `complete` batch over two identifiers of which
neither exists in the (empty) store still reports `affected = 2`. -/
theorem batchProcess_affected_count_witness :
    (TasksService.batchProcess {} { taskIds := ["x", "y"], action := "complete" } ([] : Store)
      = (Except.ok [{ action := "complete", success := true, affected := 2 }], ([] : Store),
          [Event.bulkOp "complete", Event.commit])) ∧
    ∃ r, [({ action := "complete", success := true, affected := 2 } : BatchResult)] = [r] ∧
      r.success = true ∧
      r.affected = (BatchTaskDto.taskIds { taskIds := ["x", "y"], action := "complete" }).length ∧
      r.action = BatchTaskDto.action { taskIds := ["x", "y"], action := "complete" } :=
  ⟨by decide,
    batchProcess_affected_count {} { taskIds := ["x", "y"], action := "complete" } []
      [{ action := "complete", success := true, affected := 2 }] []
      [Event.bulkOp "complete", Event.commit] (by decide)⟩

/-- A row surviving a bulk delete is not one of the targeted ids. -/
theorem mem_bulkDelete_not_target (ids : List String) (store : Store) (t : Task)
    (h : t ∈ bulkDelete ids store) : t.id ∉ ids := by
  unfold bulkDelete at h
  have hc := (List.mem_filter.mp h).2
  simpa using hc

/-- After a bulk status update, every targeted row has the new
status. -/
theorem mem_bulkSetStatus_status (ids : List String) (s : String) (store : Store) (t : Task)
    (h : t ∈ bulkSetStatus ids s store) (hid : t.id ∈ ids) : t.status = s := by
  rcases List.mem_map.mp h with ⟨u, hu, he⟩
  by_cases hm : u.id ∈ ids
  · rw [← he, if_pos (by simpa using hm)]
  · exfalso
    rw [← he, if_neg (by simpa using hm)] at hid
    exact hm hid

/-- After a bulk priority update, every targeted row has the new
priority. -/
theorem mem_bulkSetPriority_priority (ids : List String) (p : String) (store : Store) (t : Task)
    (h : t ∈ bulkSetPriority ids p store) (hid : t.id ∈ ids) : t.priority = p := by
  rcases List.mem_map.mp h with ⟨u, hu, he⟩
  by_cases hm : u.id ∈ ids
  · rw [← he, if_pos (by simpa using hm)]
  · exfalso
    rw [← he, if_neg (by simpa using hm)] at hid
    exact hm hid

/-- Claim C1: `batchProcess` is all-or-nothing with respect to the
Record Store: on any failure during the batch the store is unchanged
(the whole transaction rolls back), and on success every task whose
identifier is listed is affected by the action — deleted, completed, or
status/priority-updated. -/
theorem batchProcess_atomic (env : Env) (dto : BatchTaskDto) (store : Store) :
    (∀ e st evs, TasksService.batchProcess env dto store = (Except.error e, st, evs) →
      st = store) ∧
    (∀ res st evs, TasksService.batchProcess env dto store = (Except.ok res, st, evs) →
      (dto.action = "delete" → ∀ t ∈ st, t.id ∉ dto.taskIds) ∧
      (dto.action = "complete" → ∀ t ∈ st, t.id ∈ dto.taskIds → t.status = "completed") ∧
      (∀ s, dto.action = "update_status" → dto.newStatus = some s →
        ∀ t ∈ st, t.id ∈ dto.taskIds → t.status = s) ∧
      (∀ p, dto.action = "update_priority" → dto.newPriority = some p →
        ∀ t ∈ st, t.id ∈ dto.taskIds → t.priority = p)) := by
  constructor
  · intro e st evs h
    simp only [TasksService.batchProcess] at h
    repeat' split at h
    all_goals simp_all
  · intro res st evs h
    refine ⟨?_, ?_, ?_, ?_⟩
    · intro hact t ht
      simp only [TasksService.batchProcess, hact] at h
      simp at h
      repeat' split at h
      all_goals simp_all
      obtain ⟨hres, hst, hevs⟩ := h
      rw [← hst] at ht
      exact mem_bulkDelete_not_target _ _ _ ht
    · intro hact t ht hid
      simp only [TasksService.batchProcess, hact] at h
      simp at h
      repeat' split at h
      all_goals simp_all
      obtain ⟨hres, hst, hevs⟩ := h
      rw [← hst] at ht
      exact mem_bulkSetStatus_status _ _ _ _ ht hid
    · intro s hact hns t ht hid
      simp only [TasksService.batchProcess, hact, hns] at h
      simp at h
      repeat' split at h
      all_goals simp_all
      obtain ⟨hres, hst, hevs⟩ := h
      rw [← hst] at ht
      exact mem_bulkSetStatus_status _ _ _ _ ht hid
    · intro p hact hnp t ht hid
      simp only [TasksService.batchProcess, hact, hnp] at h
      simp at h
      repeat' split at h
      all_goals simp_all
      obtain ⟨hres, hst, hevs⟩ := h
      rw [← hst] at ht
      exact mem_bulkSetPriority_priority _ _ _ _ ht hid

/-- Witness for C1: deleting `["t1", "zz"]` (one existing, one unknown
identifier) from the two-row store removes every listed identifier —
the surviving row is not one of them — and with an injected store
failure the store is unchanged. -/
theorem batchProcess_atomic_witness :
    task1.id ∉ ["t1", "zz"] ∧ ([task0, task1] : Store) = [task0, task1] :=
  ⟨(((batchProcess_atomic {} { taskIds := ["t1", "zz"], action := "delete" }
        [task0, task1]).2
      [{ action := "delete", success := true, affected := 2 }] [task1]
      [Event.bulkOp "delete", Event.commit] (by decide)).1 rfl) task1 (by decide),
    (batchProcess_atomic { storeOk := false } { taskIds := ["t1", "zz"], action := "delete" }
        [task0, task1]).1
      (batchWrapped "store failure") [task0, task1] [Event.rollback] (by decide)⟩

/-- The three status counts partition a store whose rows respect the
status enumeration. -/
theorem countBy_status_partition (store : Store) (h : ∀ t ∈ store, t.status ∈ statusValues) :
    countBy (fun t => t.status == "pending") store
      + countBy (fun t => t.status == "in_progress") store
      + countBy (fun t => t.status == "completed") store = store.length := by
  induction store with
  | nil => rfl
  | cons t ts ih =>
      have ht := h t (List.mem_cons_self t ts)
      have hts : ∀ u ∈ ts, u.status ∈ statusValues := fun u hu => h u (List.mem_cons_of_mem t hu)
      have hrec := ih hts
      simp only [statusValues, List.mem_cons, List.not_mem_nil, or_false] at ht
      rcases ht with h1 | h1 | h1 <;>
        · simp only [countBy, List.filter_cons, h1] at hrec ⊢
          simp at hrec ⊢
          omega

/-- The three priority counts partition a store whose rows respect the
priority enumeration. -/
theorem countBy_priority_partition (store : Store) (h : ∀ t ∈ store, t.priority ∈ priorityValues) :
    countBy (fun t => t.priority == "low") store
      + countBy (fun t => t.priority == "medium") store
      + countBy (fun t => t.priority == "high") store = store.length := by
  induction store with
  | nil => rfl
  | cons t ts ih =>
      have ht := h t (List.mem_cons_self t ts)
      have hts : ∀ u ∈ ts, u.priority ∈ priorityValues := fun u hu => h u (List.mem_cons_of_mem t hu)
      have hrec := ih hts
      simp only [priorityValues, List.mem_cons, List.not_mem_nil, or_false] at ht
      rcases ht with h1 | h1 | h1 <;>
        · simp only [countBy, List.filter_cons, h1] at hrec ⊢
          simp at hrec ⊢
          omega

/-- `jsRound100 c T` is the round-half-up of `100 c / T`: it is the
unique `q` with `2 T q ≤ 200 c + T < 2 T q + 2 T`. -/
theorem jsRound100_bounds (c T : Nat) (hT : 0 < T) :
    2 * T * jsRound100 c T ≤ 200 * c + T ∧
    200 * c + T < 2 * T * jsRound100 c T + 2 * T := by
  unfold jsRound100
  have hb : 0 < 2 * T := by omega
  have h1 := Nat.div_add_mod (200 * c + T) (2 * T)
  have h2 := Nat.mod_lt (200 * c + T) hb
  constructor
  · calc 2 * T * ((200 * c + T) / (2 * T))
        ≤ 2 * T * ((200 * c + T) / (2 * T)) + (200 * c + T) % (2 * T) := Nat.le_add_right _ _
      _ = 200 * c + T := h1
  · calc 200 * c + T
        = 2 * T * ((200 * c + T) / (2 * T)) + (200 * c + T) % (2 * T) := h1.symm
      _ < 2 * T * ((200 * c + T) / (2 * T)) + 2 * T := Nat.add_lt_add_left h2 _

/-- The completion rate of a non-empty store is the rounded percentage
of completed rows. -/
theorem getStats_completionRate_pos (now : Int) (store : Store) (h : 0 < store.length) :
    (TasksService.getStats now store).completionRate
      = jsRound100 (countBy (fun t => t.status == "completed") store) store.length := by
  show (if 0 < store.length then _ else 0) = _
  rw [if_pos h]

/-- Claim C8: `getStats` returns the total count, the count for each
status and priority value, the overdue count (due date in the past,
status not completed), and the rounded completion rate (0 for an empty
store); on the 10-task fixture it returns total 10, completed 4,
completion rate 40, overdue 2, with status counts and priority counts
each summing to the total. -/
theorem getStats_spec :
    TasksService.getStats 100 statsFixture =
      { total := 10, completed := 4, inProgress := 3, pending := 3, highPriority := 3,
        mediumPriority := 4, lowPriority := 3, overdue := 2, completionRate := 40 } ∧
    (∀ now : Int, TasksService.getStats now [] =
      { total := 0, completed := 0, inProgress := 0, pending := 0, highPriority := 0,
        mediumPriority := 0, lowPriority := 0, overdue := 0, completionRate := 0 }) ∧
    (∀ (now : Int) (store : Store), (∀ t ∈ store, t.status ∈ statusValues) →
      (TasksService.getStats now store).pending + (TasksService.getStats now store).inProgress
          + (TasksService.getStats now store).completed
        = (TasksService.getStats now store).total) ∧
    (∀ (now : Int) (store : Store), (∀ t ∈ store, t.priority ∈ priorityValues) →
      (TasksService.getStats now store).lowPriority
          + (TasksService.getStats now store).mediumPriority
          + (TasksService.getStats now store).highPriority
        = (TasksService.getStats now store).total) ∧
    (∀ (now : Int) (store : Store), 0 < store.length →
      2 * store.length * (TasksService.getStats now store).completionRate
          ≤ 200 * (TasksService.getStats now store).completed + store.length ∧
      200 * (TasksService.getStats now store).completed + store.length
          < 2 * store.length * (TasksService.getStats now store).completionRate
              + 2 * store.length) := by
  refine ⟨by decide, fun now => rfl, ?_, ?_, ?_⟩
  · intro now store h
    exact countBy_status_partition store h
  · intro now store h
    exact countBy_priority_partition store h
  · intro now store h
    rw [getStats_completionRate_pos now store h]
    exact jsRound100_bounds _ _ h

/-- Witness for C8, at the 10-task fixture: its rows respect both
enumerations, its store is non-empty, and the status counts sum to the
total while the completion rate satisfies the rounding bounds. -/
theorem getStats_spec_witness :
    (TasksService.getStats 100 statsFixture).pending
        + (TasksService.getStats 100 statsFixture).inProgress
        + (TasksService.getStats 100 statsFixture).completed
      = (TasksService.getStats 100 statsFixture).total ∧
    (TasksService.getStats 100 statsFixture).lowPriority
        + (TasksService.getStats 100 statsFixture).mediumPriority
        + (TasksService.getStats 100 statsFixture).highPriority
      = (TasksService.getStats 100 statsFixture).total ∧
    2 * statsFixture.length * (TasksService.getStats 100 statsFixture).completionRate
      ≤ 200 * (TasksService.getStats 100 statsFixture).completed + statsFixture.length :=
  ⟨getStats_spec.2.2.1 100 statsFixture (by decide),
    getStats_spec.2.2.2.1 100 statsFixture (by decide),
    (getStats_spec.2.2.2.2 100 statsFixture (by decide)).1⟩

/-- Claim C9: `findAll` with page `p ≥ 1` and limit `L ≥ 1` over a
filter matching `T` rows returns the page slice starting at offset
`(p−1)·L` of the sorted matches, hence at most `L` items; `total = T`;
`totalPages` is the ceiling of `T / L` (characterised by
`T ≤ totalPages·L < T + L`); `hasNext ↔ p < totalPages`; and
`hasPrev ↔ p > 1`. -/
theorem findAll_pagination (q : QueryTaskDto) (store : Store)
    (hp : 1 ≤ q.page) (hl : 1 ≤ q.limit) :
    (TasksService.findAll q store).data.length
        = min q.limit ((store.filter (matchesQuery q)).length - (q.page - 1) * q.limit) ∧
    (TasksService.findAll q store).data.length ≤ q.limit ∧
    (TasksService.findAll q store).total = (store.filter (matchesQuery q)).length ∧
    (TasksService.findAll q store).total
        ≤ (TasksService.findAll q store).totalPages * q.limit ∧
    (TasksService.findAll q store).totalPages * q.limit
        < (TasksService.findAll q store).total + q.limit ∧
    ((TasksService.findAll q store).hasNext = true ↔
      q.page < (TasksService.findAll q store).totalPages) ∧
    ((TasksService.findAll q store).hasPrev = true ↔ 1 < q.page) := by
  have hl0 : 0 < q.limit := hl
  have hdata : (TasksService.findAll q store).data.length
      = min q.limit ((store.filter (matchesQuery q)).length - (q.page - 1) * q.limit) := by
    show (((sortTasks (taskLe q) (store.filter (matchesQuery q))).drop
        ((q.page - 1) * q.limit)).take q.limit).length = _
    rw [List.length_take, List.length_drop, sortTasks_length]
  have htp : (TasksService.findAll q store).totalPages
      = ((store.filter (matchesQuery q)).length + q.limit - 1) / q.limit := rfl
  have htot : (TasksService.findAll q store).total
      = (store.filter (matchesQuery q)).length := rfl
  have hA : (store.filter (matchesQuery q)).length + q.limit - 1
      < (((store.filter (matchesQuery q)).length + q.limit - 1) / q.limit) * q.limit
          + q.limit := by
    have hs := (Nat.div_lt_iff_lt_mul hl0).mp
      (Nat.lt_succ_self (((store.filter (matchesQuery q)).length + q.limit - 1) / q.limit))
    rwa [Nat.succ_mul] at hs
  have hB := Nat.div_mul_le_self ((store.filter (matchesQuery q)).length + q.limit - 1) q.limit
  refine ⟨hdata, ?_, htot, ?_, ?_, ?_, ?_⟩
  · rw [hdata]; exact Nat.min_le_left _ _
  · rw [htot, htp]; omega
  · rw [htot, htp]; omega
  · show (decide (q.page < (TasksService.findAll q store).totalPages) = true) ↔ _
    simp
  · show (decide (q.page > 1) = true) ↔ _
    simp

/-- Witness for C9: page 2 with limit 5 over 12 matching rows — exactly
5 items, total 12, 3 total pages, next page available, previous page
available. -/
theorem findAll_pagination_witness :
    1 ≤ q12.page ∧ 1 ≤ q12.limit ∧
    (TasksService.findAll q12 store12).data.length
        = min q12.limit ((store12.filter (matchesQuery q12)).length
            - (q12.page - 1) * q12.limit) ∧
    (TasksService.findAll q12 store12).data.length = 5 ∧
    (TasksService.findAll q12 store12).total = 12 ∧
    (TasksService.findAll q12 store12).totalPages = 3 ∧
    (TasksService.findAll q12 store12).hasNext = true ∧
    (TasksService.findAll q12 store12).hasPrev = true :=
  ⟨by decide, by decide, (findAll_pagination q12 store12 (by decide) (by decide)).1,
    by decide, by decide, by decide, by decide, by decide⟩

/-- Claim C2 counterexample: in `create`, the enqueue attempt happens
inside the transaction, before the commit — with an injected commit
failure the transaction rolls back (error result, store unchanged, no
commit event) even though the enqueue was already attempted, so "no
enqueue happens for a transaction that rolls back" is false at this
input. -/
theorem create_enqueue_in_rolled_back_txn_cex :
    (TasksService.create { commitOk := false } { title := "x" } "id9" 7 [task0]).1
        = Except.error (ServiceError.badRequest "Failed to create task") ∧
    (TasksService.create { commitOk := false } { title := "x" } "id9" 7 [task0]).2.1 = [task0] ∧
    Event.enqueue "id9" "pending" true
        ∈ (TasksService.create { commitOk := false } { title := "x" } "id9" 7 [task0]).2.2 ∧
    Event.commit ∉ (TasksService.create { commitOk := false } { title := "x" } "id9" 7 [task0]).2.2 ∧
    Event.rollback
        ∈ (TasksService.create { commitOk := false } { title := "x" } "id9" 7 [task0]).2.2 := by
  decide

/-- Claim C2 (amended): for `create` and for `update` the enqueue
attempt occurs inside the transaction — after the row save succeeds and
before the terminal commit or rollback — so an enqueue can occur for a
transaction that subsequently rolls back; when the save fails, no
enqueue is attempted. -/
theorem enqueue_between_save_and_commit (env : Env) (dto : CreateTaskDto) (newId : String)
    (now : Int) (store : Store) (id : String) (patch : UpdateTaskDto) (task : Task) :
    (env.storeOk = true → env.queuePresent = true →
      (TasksService.create env dto newId now store).2.2
        = [Event.save newId,
           Event.enqueue newId (createdTask dto newId now).status env.enqueueOk,
           if env.commitOk then Event.commit else Event.rollback]) ∧
    (env.storeOk = false →
      (TasksService.create env dto newId now store).2.2 = [Event.rollback] ∧
      (TasksService.update env id patch now store).2.2.filter isEnqueueEvent = []) ∧
    (findRow id store = some task → env.storeOk = true → env.queuePresent = true →
      task.status ≠ (patchedTask task patch now).status →
      (TasksService.update env id patch now store).2.2
        = [Event.save task.id,
           Event.enqueue task.id (patchedTask task patch now).status env.enqueueOk,
           if env.commitOk then Event.commit else Event.rollback]) := by
  refine ⟨?_, ?_, ?_⟩
  · intro hs hq
    simp only [TasksService.create, hs, hq, if_true]
    split <;> rfl
  · intro hs
    constructor
    · simp [TasksService.create, hs]
    · simp only [TasksService.update, hs]
      cases hfind : findRow id store <;> simp [isEnqueueEvent]
  · intro hfind hs hq hne
    simp only [TasksService.update, hfind, hs, if_true]
    have hne2 : (task.status != (patchedTask task patch now).status) = true := by
      simpa using hne
    simp only [hne2, hq, Bool.and_self, if_true]
    split <;> rfl

/-- Witness for C2's amended theorem at concrete inputs: the create
trace with every collaborator healthy, and the update trace for a
status-changing patch on the one-row store. -/
theorem enqueue_between_save_and_commit_witness :
    (findRow "t1" [task0] = some task0 ∧
      task0.status ≠ (patchedTask task0 { status := some "completed" } 9).status) ∧
    (TasksService.create {} { title := "x" } "id9" 7 [task0]).2.2
        = [Event.save "id9", Event.enqueue "id9" "pending" true, Event.commit] ∧
    (TasksService.update {} "t1" { status := some "completed" } 9 [task0]).2.2
        = [Event.save "t1", Event.enqueue "t1" "completed" true, Event.commit] :=
  ⟨⟨by decide, by decide⟩,
    (enqueue_between_save_and_commit {} { title := "x" } "id9" 7 [task0] "t1"
        { status := some "completed" } task0).1 rfl rfl,
    (enqueue_between_save_and_commit {} { title := "x" } "id9" 7 [task0] "t1"
        { status := some "completed" } task0).2.2 (by decide) rfl rfl (by decide)⟩

/-- Claim C3: when the queue is absent or its enqueue fails, `create`
and `update` still return the persisted task successfully — the caller
never observes a queue error — and the committed store mutation stands.
(The statement quantifies over any queue behaviour, so in particular the
failing one named by the hypothesis.) -/
theorem queue_failure_swallowed (env : Env) (dto : CreateTaskDto) (newId : String)
    (now : Int) (store : Store) (id : String) (patch : UpdateTaskDto) (task : Task)
    (hq : env.enqueueOk = false ∨ env.queuePresent = false)
    (hs : env.storeOk = true) (hc : env.commitOk = true) :
    (TasksService.create env dto newId now store).1 = Except.ok (createdTask dto newId now) ∧
    (TasksService.create env dto newId now store).2.1
        = saveRow store (createdTask dto newId now) ∧
    (findRow id store = some task →
      (TasksService.update env id patch now store).1 = Except.ok (patchedTask task patch now) ∧
      (TasksService.update env id patch now store).2.1
          = saveRow store (patchedTask task patch now)) := by
  refine ⟨?_, ?_, ?_⟩
  · simp [TasksService.create, hs, hc]
  · simp [TasksService.create, hs, hc]
  · intro hfind
    constructor <;> simp [TasksService.update, hfind, hs, hc]

/-- Witness for C3: with a failing queue adapter, a concrete create and
a concrete status-changing update both succeed. -/
theorem queue_failure_swallowed_witness :
    ((({ enqueueOk := false } : Env)).enqueueOk = false ∨
      (({ enqueueOk := false } : Env)).queuePresent = false) ∧
    (TasksService.create { enqueueOk := false } { title := "x" } "id9" 7 [task0]).1
        = Except.ok (createdTask { title := "x" } "id9" 7) ∧
    (TasksService.update { enqueueOk := false } "t1" { status := some "completed" } 7 [task0]).1
        = Except.ok (patchedTask task0 { status := some "completed" } 7) :=
  ⟨Or.inl rfl,
    (queue_failure_swallowed { enqueueOk := false } { title := "x" } "id9" 7 [task0] "t1"
        { status := some "completed" } task0 (Or.inl rfl) rfl rfl).1,
    ((queue_failure_swallowed { enqueueOk := false } { title := "x" } "id9" 7 [task0] "t1"
        { status := some "completed" } task0 (Or.inl rfl) rfl rfl).2.2 (by decide)).1⟩

/-- Claim C4 counterexample: `updateStatus` commits the row change but
attempts zero enqueues (its trace is just the repository save), so "the
updateStatus path ... attempts exactly one event enqueue" is false at
this input even with the queue adapter present. -/
theorem updateStatus_no_enqueue_cex :
    (TasksService.updateStatus "t1" "completed" 5 [task0]).1
        = Except.ok { task0 with status := "completed", updatedAt := 5 } ∧
    (TasksService.updateStatus "t1" "completed" 5 [task0]).2.1
        = [{ task0 with status := "completed", updatedAt := 5 }] ∧
    (TasksService.updateStatus "t1" "completed" 5 [task0]).2.2 = [Event.save "t1"] ∧
    enqueueCount (TasksService.updateStatus "t1" "completed" 5 [task0]).2.2 = 0 := by
  decide

/-- Claim C4 (amended): the `update` path with a status-changing patch
commits the row change and attempts exactly one enqueue carrying the
post-change status, and still succeeds with no enqueue attempt when the
queue adapter is absent; the `updateStatus` path persists the new status
but never attempts any enqueue. -/
theorem status_update_enqueue_policy (env : Env) (id : String) (patch : UpdateTaskDto)
    (now : Int) (store : Store) (task : Task) (s : String)
    (hfind : findRow id store = some task)
    (hs : env.storeOk = true) (hc : env.commitOk = true) :
    (env.queuePresent = true → task.status ≠ (patchedTask task patch now).status →
      (TasksService.update env id patch now store).2.2.filter isEnqueueEvent
          = [Event.enqueue task.id (patchedTask task patch now).status env.enqueueOk] ∧
      (TasksService.update env id patch now store).1
          = Except.ok (patchedTask task patch now) ∧
      (TasksService.update env id patch now store).2.1
          = saveRow store (patchedTask task patch now)) ∧
    (env.queuePresent = false →
      enqueueCount (TasksService.update env id patch now store).2.2 = 0 ∧
      (TasksService.update env id patch now store).1
          = Except.ok (patchedTask task patch now)) ∧
    (enqueueCount (TasksService.updateStatus id s now store).2.2 = 0 ∧
      (TasksService.updateStatus id s now store).1
          = Except.ok { task with status := s, updatedAt := now } ∧
      (TasksService.updateStatus id s now store).2.1
          = saveRow store { task with status := s, updatedAt := now }) := by
  refine ⟨?_, ?_, ?_⟩
  · intro hq hne
    have hne2 : (task.status != (patchedTask task patch now).status) = true := by
      simpa using hne
    refine ⟨?_, ?_, ?_⟩ <;>
      simp [TasksService.update, hfind, hs, hc, hq, hne2, isEnqueueEvent, patchedTask_id]
  · intro hq
    constructor <;>
      simp [TasksService.update, enqueueCount, hfind, hs, hc, hq, isEnqueueEvent]
  · refine ⟨?_, ?_, ?_⟩ <;>
      simp [TasksService.updateStatus, TasksService.findOne, hfind, enqueueCount, isEnqueueEvent]

/-- Witness for C4's amended theorem: concrete update with a
status-changing patch (one enqueue, new status), and concrete
updateStatus (zero enqueues, row still persisted). -/
theorem status_update_enqueue_policy_witness :
    (findRow "t1" [task0] = some task0 ∧
      task0.status ≠ (patchedTask task0 { status := some "in_progress" } 4).status) ∧
    (TasksService.update {} "t1" { status := some "in_progress" } 4 [task0]).2.2.filter
        isEnqueueEvent
      = [Event.enqueue task0.id (patchedTask task0 { status := some "in_progress" } 4).status
          (Env.enqueueOk {})] ∧
    enqueueCount (TasksService.updateStatus "t1" "done-ish" 4 [task0]).2.2 = 0 :=
  ⟨⟨by decide, by decide⟩,
    ((status_update_enqueue_policy {} "t1" { status := some "in_progress" } 4 [task0] task0
        "done-ish" (by decide) rfl rfl).1 rfl (by decide)).1,
    ((status_update_enqueue_policy {} "t1" { status := some "in_progress" } 4 [task0] task0
        "done-ish" (by decide) rfl rfl).2.2).1⟩

/-- A valid store stays valid when a valid row is saved into it. -/
theorem validStore_saveRow (store : Store) (u : Task) (hv : validStore store)
    (hu : validTask u) : validStore (saveRow store u) := by
  intro t ht
  rcases mem_saveRow store u t ht with h | h
  · rw [h]; exact hu
  · exact hv t h

/-- A bulk status update with an enumerated status keeps the store
valid. -/
theorem validStore_bulkSetStatus (ids : List String) (s : String) (store : Store)
    (hv : validStore store) (hs : s ∈ statusValues) :
    validStore (bulkSetStatus ids s store) := by
  intro t ht
  rcases List.mem_map.mp ht with ⟨u, hu, he⟩
  rw [← he]
  split
  · exact ⟨hs, (hv u hu).2⟩
  · exact hv u hu

/-- A bulk priority update with an enumerated priority keeps the store
valid. -/
theorem validStore_bulkSetPriority (ids : List String) (p : String) (store : Store)
    (hv : validStore store) (hp : p ∈ priorityValues) :
    validStore (bulkSetPriority ids p store) := by
  intro t ht
  rcases List.mem_map.mp ht with ⟨u, hu, he⟩
  rw [← he]
  split
  · exact ⟨(hv u hu).1, hp⟩
  · exact hv u hu

/-- Deleting rows keeps the store valid. -/
theorem validStore_bulkDelete (ids : List String) (store : Store) (hv : validStore store) :
    validStore (bulkDelete ids store) := by
  intro t ht
  exact hv t (List.mem_of_mem_filter ht)

/-- A patched row is valid when the pre-image is valid and the patch
only supplies enumerated status and priority values. -/
theorem validTask_patched (t : Task) (p : UpdateTaskDto) (now : Int) (hv : validTask t)
    (hps : ∀ x, p.status = some x → x ∈ statusValues)
    (hpp : ∀ x, p.priority = some x → x ∈ priorityValues) :
    validTask (patchedTask t p now) := by
  constructor
  · show p.status.getD t.status ∈ statusValues
    cases hx : p.status with
    | none => simpa using hv.1
    | some x => simpa using hps x hx
  · show p.priority.getD t.priority ∈ priorityValues
    cases hx : p.priority with
    | none => simpa using hv.2
    | some x => simpa using hpp x hx

/-- The store `batchProcess` leaves behind is the input store or one of
the four bulk mutations. -/
theorem batchProcess_store_cases (env : Env) (dto : BatchTaskDto) (store : Store) :
    (TasksService.batchProcess env dto store).2.1 = store ∨
    (TasksService.batchProcess env dto store).2.1
        = bulkSetStatus dto.taskIds "completed" store ∨
    (TasksService.batchProcess env dto store).2.1 = bulkDelete dto.taskIds store ∨
    (∃ s2, dto.newStatus = some s2 ∧
      (TasksService.batchProcess env dto store).2.1 = bulkSetStatus dto.taskIds s2 store) ∨
    (∃ p2, dto.newPriority = some p2 ∧
      (TasksService.batchProcess env dto store).2.1 = bulkSetPriority dto.taskIds p2 store) := by
  simp only [TasksService.batchProcess]
  repeat' split
  all_goals first
    | exact Or.inl rfl
    | exact Or.inr (Or.inl rfl)
    | exact Or.inr (Or.inr (Or.inl rfl))
    | exact Or.inr (Or.inr (Or.inr (Or.inl ⟨_, by assumption, rfl⟩)))
    | exact Or.inr (Or.inr (Or.inr (Or.inr ⟨_, by assumption, rfl⟩)))

/-- Claim C5 counterexample: `updateStatus` with the arbitrary string
"bogus" persists "bogus" as the row's status, and `batchProcess` with
action `update_priority` and the non-empty string "urgent" persists
"urgent" as the row's priority — both outside their enumerations. -/
theorem updateStatus_raw_string_cex :
    (TasksService.updateStatus "t1" "bogus" 5 [task0]).2.1
        = [{ task0 with status := "bogus", updatedAt := 5 }] ∧
    "bogus" ∉ statusValues ∧
    (TasksService.batchProcess {}
        { taskIds := ["t1"], action := "update_priority", newPriority := some "urgent" }
        [task0]).2.1
      = [{ task0 with priority := "urgent" }] ∧
    "urgent" ∉ priorityValues := by
  decide

/-- Claim C5 (amended): the enumeration invariant is preserved by every
operation provided `updateStatus` is called with an enumerated status,
the create/update inputs carry enumerated values, and a batch
`update_priority` carries an enumerated priority; `updateStatus` and the
`update_priority` branch persist their argument string verbatim, so a
caller passing a value outside the enumerations makes the store violate
the invariant. -/
theorem enum_invariant_conditional (env : Env) (store : Store) (dto : CreateTaskDto)
    (newId : String) (now : Int) (id : String) (patch : UpdateTaskDto)
    (bdto : BatchTaskDto) (s r : String)
    (hv : validStore store)
    (hcs : dto.status.getD "pending" ∈ statusValues)
    (hcp : dto.priority.getD "medium" ∈ priorityValues)
    (hps : ∀ x, patch.status = some x → x ∈ statusValues)
    (hpp : ∀ x, patch.priority = some x → x ∈ priorityValues)
    (hbs : ∀ x, bdto.newStatus = some x → x ∈ statusValues)
    (hbp : ∀ x, bdto.newPriority = some x → x ∈ priorityValues)
    (hse : s ∈ statusValues) :
    validStore (TasksService.create env dto newId now store).2.1 ∧
    validStore (TasksService.update env id patch now store).2.1 ∧
    validStore (TasksService.remove env id store).2.1 ∧
    validStore (TasksService.updateStatus id s now store).2.1 ∧
    validStore (TasksService.batchProcess env bdto store).2.1 ∧
    (∀ task, findRow id store = some task →
      (TasksService.updateStatus id r now store).2.1
        = saveRow store { task with status := r, updatedAt := now }) ∧
    (env.storeOk = true → env.commitOk = true → ∀ p2 : String, p2.isEmpty = false →
      (TasksService.batchProcess env
          { taskIds := bdto.taskIds, action := "update_priority", newStatus := bdto.newStatus,
            newPriority := some p2 } store).2.1
        = bulkSetPriority bdto.taskIds p2 store) := by
  refine ⟨?_, ?_, ?_, ?_, ?_, ?_, ?_⟩
  · by_cases h1 : env.storeOk = true
    · by_cases h2 : env.commitOk = true
      · simp only [TasksService.create, h1, h2, if_true]
        exact validStore_saveRow _ _ hv ⟨hcs, hcp⟩
      · simp [TasksService.create, h1, h2]; exact hv
    · simp [TasksService.create, h1]; exact hv
  · cases hfind : findRow id store with
    | none => simp [TasksService.update, hfind]; exact hv
    | some task =>
        have htask : task ∈ store := by
          have := List.mem_of_find?_eq_some hfind
          exact this
        by_cases h1 : env.storeOk = true
        · by_cases h2 : env.commitOk = true
          · simp only [TasksService.update, hfind, h1, h2, if_true]
            exact validStore_saveRow _ _ hv
              (validTask_patched task patch now (hv task htask) hps hpp)
          · simp [TasksService.update, hfind, h1, h2]
            exact hv
        · simp [TasksService.update, hfind, h1]; exact hv
  · cases hfind : findRow id store with
    | none => simp [TasksService.remove, hfind]; exact hv
    | some task =>
        by_cases h1 : env.storeOk = true
        · by_cases h2 : env.commitOk = true
          · simp only [TasksService.remove, hfind, h1, h2, if_true]
            intro t ht
            exact hv t (List.mem_of_mem_filter ht)
          · simp [TasksService.remove, hfind, h1, h2]; exact hv
        · simp [TasksService.remove, hfind, h1]; exact hv
  · cases hfind : findRow id store with
    | none => simp [TasksService.updateStatus, TasksService.findOne, hfind]; exact hv
    | some task =>
        have htask : task ∈ store := List.mem_of_find?_eq_some hfind
        simp only [TasksService.updateStatus, TasksService.findOne, hfind]
        exact validStore_saveRow _ _ hv ⟨hse, (hv task htask).2⟩
  · rcases batchProcess_store_cases env bdto store with h | h | h | ⟨s2, hs2, h⟩ | ⟨p2, hp2, h⟩
    · rw [h]; exact hv
    · rw [h]; exact validStore_bulkSetStatus _ _ _ hv (by decide)
    · rw [h]; exact validStore_bulkDelete _ _ hv
    · rw [h]; exact validStore_bulkSetStatus _ _ _ hv (hbs s2 hs2)
    · rw [h]; exact validStore_bulkSetPriority _ _ _ hv (hbp p2 hp2)
  · intro task hfind
    simp [TasksService.updateStatus, TasksService.findOne, hfind]
  · intro hso hco p2 hp2
    simp [TasksService.batchProcess, hso, hco, hp2]

/-- Witness for C5's amended theorem: on the one-row valid store, a
concrete enumerated `updateStatus` keeps the store valid, and the
verbatim-persistence consequence holds for the arbitrary string
"whatever". -/
theorem enum_invariant_conditional_witness :
    validStore (TasksService.updateStatus "t1" "completed" 5 [task0]).2.1 ∧
    (TasksService.updateStatus "t1" "whatever" 5 [task0]).2.1
      = saveRow [task0] { task0 with status := "whatever", updatedAt := 5 } :=
  ⟨(enum_invariant_conditional {} [task0] { title := "x" } "id9" 5 "t1" {}
      { taskIds := ["t1"], action := "complete" } "completed" "whatever"
      (by decide) (by decide) (by decide)
      (fun x hx => by cases hx) (fun x hx => by cases hx)
      (fun x hx => by cases hx) (fun x hx => by cases hx) (by decide)).2.2.2.1,
    (enum_invariant_conditional {} [task0] { title := "x" } "id9" 5 "t1" {}
      { taskIds := ["t1"], action := "complete" } "completed" "whatever"
      (by decide) (by decide) (by decide)
      (fun x hx => by cases hx) (fun x hx => by cases hx)
      (fun x hx => by cases hx) (fun x hx => by cases hx) (by decide)).2.2.2.2.2.1
      task0 (by decide)⟩

/-- Claim C6 counterexample: `batchProcess` does not surface its
validation failure unchanged — the error it raises internally for a
missing `newStatus` is re-wrapped by the catch clause with the
"Batch operation failed: " prefix, so the surfaced error differs from
the raised one. -/
theorem batch_validation_error_wrapped_cex :
    (TasksService.batchProcess {} { taskIds := ["t1"], action := "update_status" } [task0]).1
        = Except.error (batchWrapped newStatusRequiredMsg) ∧
    batchWrapped newStatusRequiredMsg ≠ ServiceError.badRequest newStatusRequiredMsg := by
  decide

/-- Claim C6 (amended): `update` and `remove` re-raise NotFound as-is
after rollback and wrap unexpected store errors into the generic
"Failed to update/remove task"; `batchProcess` rolls back and keeps the
ValidationFailure kind for its own validation errors but wraps every
message — its own validation messages included — with
"Batch operation failed: ". -/
theorem error_propagation_policy (env : Env) (id : String) (patch : UpdateTaskDto)
    (now : Int) (store : Store) (ids : List String) (np : Option String) :
    (findRow id store = none →
      TasksService.update env id patch now store
        = (Except.error (ServiceError.notFound ("Task with ID " ++ id ++ " not found")), store,
            [Event.rollback]) ∧
      TasksService.remove env id store
        = (Except.error (ServiceError.notFound ("Task with ID " ++ id ++ " not found")), store,
            [Event.rollback])) ∧
    (env.storeOk = false → ∀ task, findRow id store = some task →
      (TasksService.update env id patch now store).1
          = Except.error (ServiceError.badRequest "Failed to update task") ∧
      (TasksService.update env id patch now store).2.1 = store ∧
      (TasksService.remove env id store).1
          = Except.error (ServiceError.badRequest "Failed to remove task") ∧
      (TasksService.remove env id store).2.1 = store) ∧
    ((TasksService.batchProcess env
        { taskIds := ids, action := "update_status", newStatus := none, newPriority := np }
        store).1 = Except.error (batchWrapped newStatusRequiredMsg) ∧
      (TasksService.batchProcess env
        { taskIds := ids, action := "update_status", newStatus := none, newPriority := np }
        store).2.1 = store) := by
  refine ⟨?_, ?_, ?_⟩
  · intro hfind
    constructor <;> simp [TasksService.update, TasksService.remove, hfind]
  · intro h1 task hfind
    refine ⟨?_, ?_, ?_, ?_⟩ <;>
      simp [TasksService.update, TasksService.remove, hfind, h1]
  · constructor <;> simp [TasksService.batchProcess]

/-- Witness for C6's amended theorem: a missing row surfaces NotFound
as-is, and an injected store failure on an existing row surfaces the
generic update failure with the store unchanged. -/
theorem error_propagation_policy_witness :
    (TasksService.update {} "zz" {} 3 [task0]
        = (Except.error (ServiceError.notFound ("Task with ID " ++ "zz" ++ " not found")),
            [task0], [Event.rollback])) ∧
    (TasksService.update { storeOk := false } "t1" {} 3 [task0]).1
        = Except.error (ServiceError.badRequest "Failed to update task") ∧
    (TasksService.update { storeOk := false } "t1" {} 3 [task0]).2.1 = [task0] :=
  ⟨((error_propagation_policy {} "zz" {} 3 [task0] [] none).1 (by decide)).1,
    ((error_propagation_policy { storeOk := false } "t1" {} 3 [task0] [] none).2.1 rfl task0
      (by decide)).1,
    ((error_propagation_policy { storeOk := false } "t1" {} 3 [task0] [] none).2.1 rfl task0
      (by decide)).2.1⟩

end TaskFlow
